import Mathlib

/-!
# Verification of `ibind/base/rest_client.py`

A shallow embedding of the REST dispatcher in `src/ibind/base/rest_client.py`:
the `Result` value type with its `copy` operation, client construction
(`RestClient.__init__`), the lazy/eager logger lifecycle (`make_logger`, the
`logger` property), the retry dispatcher (`RestClient.request` and the
convenience methods `get`/`post`/`delete`) and response processing
(`RestClient._process_response`).

Modelling conventions:
* Python keyword-argument dictionaries are association lists over `ParamVal`.
* The HTTP transport (`requests.request`) is an oracle
  `Nat → KwArgs → TransportOutcome`, mapping the attempt index and the keyword
  arguments actually passed to either a returned response, a raised
  `ReadTimeout`, or some other raised exception.  The `verify=`/`timeout=`
  arguments are part of the immutable client configuration and are absorbed
  into the oracle.
* Raised exceptions become constructors of `ReqOutcome`; falling off the end
  of the Python function body (implicitly returning `None`) is
  `ReqOutcome.noneReturned`.
* f-string error messages are modelled structurally: the error value keeps
  each interpolated component as a field.
* The embedding records the list of transport invocations (attempt index and
  keyword arguments) so that claims about transport call counts are statable.
-/

/-- A Python value occurring in keyword arguments: `None`, the `UNDEFINED`
sentinel from `support.py_utils`, booleans, strings, integers, or a (flat)
dictionary such as a `params` dict. -/
inductive ParamVal where
  | noneV : ParamVal
  | undefined : ParamVal
  | boolV : Bool → ParamVal
  | strV : String → ParamVal
  | intV : Int → ParamVal
  | dictV : List (String × String) → ParamVal
deriving DecidableEq

/-- A Python keyword-argument dictionary, as an association list. -/
abbrev KwArgs := List (String × ParamVal)

/-- Modelled from the spec: `filter_none` is imported from
`support.py_utils`, which is not under `src/`.  Per the spec, the
absent/`UNDEFINED` marker is "a distinguishable marker, not equivalent to
`null`/empty — stripped before transport dispatch", "distinct from an
explicitly-false or explicitly-empty value": exactly the entries whose value
is the `UNDEFINED` sentinel are removed, all other entries are kept. -/
def filter_none (kwargs : KwArgs) : KwArgs :=
  kwargs.filter (fun p => decide (p.2 ≠ ParamVal.undefined))

/-- A parsed JSON body (`response.json()`): a flat object or array suffices
for the behaviour under verification. -/
inductive JsonVal where
  | dict : List (String × String) → JsonVal
  | list : List String → JsonVal
deriving DecidableEq

/-- The transport response object (`requests.Response`): status code, reason
phrase, raw text body, and the result of `response.json()` (`none` models a
JSON parse failure). -/
structure HttpResponse where
  status_code : Nat
  reason : String
  text : String
  json : Option JsonVal
deriving DecidableEq

/-- Outcome of one call to `requests.request`: a returned response, a raised
`requests.ReadTimeout` (with the exception value), or any other raised
exception. -/
inductive TransportOutcome where
  | response : HttpResponse → TransportOutcome
  | readTimeout : String → TransportOutcome
  | otherError : String → TransportOutcome

/-- The `Result` dataclass as a pure value, as used by the dispatcher:
`data` is the optional parsed payload, `request` the request-description
dictionary. -/
structure ResultV where
  data : Option JsonVal
  request : KwArgs
deriving DecidableEq

/-- The dictionary expression `{'url': url, **kwargs}` from
`RestClient.request`: if `kwargs` itself binds the key `"url"`, the merge
lets `kwargs` win; otherwise the resolved URL is the extra first entry. -/
def requestDict (url : String) (kwargs : KwArgs) : KwArgs :=
  if kwargs.any (fun p => p.1 == "url") then kwargs
  else ("url", ParamVal.strV url) :: kwargs

/-- The `TimeoutError` raised when retries are exhausted.  The message
f-string `Reached max retries ({max_retries}) for {method} {url} {kwargs}`
is kept structurally, one field per interpolated component; `cause` is the
chained `ReadTimeout` (`raise ... from e`). -/
structure TimeoutErr where
  maxRetries : Int
  method : String
  url : String
  kwargs : KwArgs
  cause : String
deriving DecidableEq

/-- The `ExternalBrokerError` raised by `_process_response`.  The message
f-string `IbkrClient response error {result} :: {status_code} :: {reason} ::
{text}` is kept structurally; `status_code` is the keyword argument
`status_code=response.status_code`. -/
structure BrokerErr where
  result : ResultV
  status : Nat
  reason : String
  text : String
  status_code : Nat
deriving DecidableEq

/-- Outcome of `RestClient.request`: a returned `Result`, a raised
`TimeoutError`, a raised `ExternalBrokerError`, a re-raised transport
exception, or the implicit `None` returned when the loop body never runs. -/
inductive ReqOutcome where
  | ok : ResultV → ReqOutcome
  | timeoutErr : TimeoutErr → ReqOutcome
  | brokerErr : BrokerErr → ReqOutcome
  | raised : String → ReqOutcome
  | noneReturned : ReqOutcome
deriving DecidableEq

/-- A run of `RestClient.request`: its outcome together with the trace of
transport invocations (attempt index, keyword arguments passed). -/
structure ReqRun where
  outcome : ReqOutcome
  calls : List (Nat × KwArgs)
deriving DecidableEq

/-- The `cacert` constructor argument: the disabled sentinel `False` or a
filesystem path. -/
inductive CacertVal where
  | falseV : CacertVal
  | path : String → CacertVal
deriving DecidableEq

/-- The state of a constructed `RestClient`.  `logger` is `some id` when the
`_logger` attribute holds the sink with identity `id`, `none` when the
attribute is missing.  Construction creates sink `0`. -/
structure ClientState where
  base_url : String
  cacert : CacertVal
  timeout : Int
  maxRetries : Int
  logger : Option Nat
deriving DecidableEq

namespace RestClient

/-- `RestClient.make_logger`: creates a fresh logging sink and stores it in
the `_logger` attribute. -/
def make_logger (c : ClientState) (fresh : Nat) : ClientState :=
  { c with logger := some fresh }

/-- The `RestClient.logger` property: returns `_logger` if the attribute is
set; on `AttributeError` it calls `make_logger` (with fresh sink identity
`fresh`) and returns the new sink. -/
def loggerProp (c : ClientState) (fresh : Nat) : Nat × ClientState :=
  match c.logger with
  | some l => (l, c)
  | none => (fresh, { c with logger := some fresh })

/-- The Python check `url.endswith('/')` from `__init__`, written over the
string's character list so that it evaluates by kernel reduction. -/
def url_endswith_slash (u : String) : Bool := u.data.getLast? == some '/'

/-- `RestClient.__init__`: rejects a missing `url`; normalizes `base_url` to
end with `/`; rejects a `cacert` that is neither `False` nor an existing
path (`fsExists` embeds `Path(...).exists()`); stores `timeout` and
`max_retries` verbatim; finally calls `make_logger`, creating sink `0`. -/
def init (url : Option String) (cacert : CacertVal) (fsExists : String → Bool)
    (timeout maxRetries : Int) : Except String ClientState :=
  match url with
  | none => Except.error "url must not be None"
  | some u =>
    let base := if url_endswith_slash u then u else u ++ "/"
    let okCert := match cacert with
      | CacertVal.falseV => true
      | CacertVal.path p => fsExists p
    if okCert then
      Except.ok (make_logger
        { base_url := base, cacert := cacert, timeout := timeout,
          maxRetries := maxRetries, logger := none } 0)
    else
      Except.error "cacert must be a valid Path or False"

/-- `RestClient._process_response`: `response.raise_for_status()` raises
`HTTPError` exactly for status codes in `[400, 600)`; then
`result.data = response.json()` (a parse failure raises).  Both raised
exceptions land in the final `except Exception` clause, producing an
`ExternalBrokerError` carrying the partially-built result, the status code,
the reason, and the raw body.  (The intermediate `except Timeout` clause is
unreachable for a response object: `raise_for_status` and `json` never raise
`requests.Timeout`.) -/
def _process_response (resp : HttpResponse) (result : ResultV) : ReqOutcome :=
  if 400 ≤ resp.status_code ∧ resp.status_code < 600 then
    ReqOutcome.brokerErr
      { result := result, status := resp.status_code, reason := resp.reason,
        text := resp.text, status_code := resp.status_code }
  else
    match resp.json with
    | some body => ReqOutcome.ok { result with data := some body }
    | none =>
      ReqOutcome.brokerErr
        { result := result, status := resp.status_code, reason := resp.reason,
          text := resp.text, status_code := resp.status_code }

end RestClient

/-- The body of the `for attempt in range(self._max_retries + 1)` loop of
`RestClient.request`, processing the remaining attempt indices in order and
accumulating the trace of transport invocations.  Per iteration: call the
transport; on a returned response build a fresh `Result` with
`request={'url': url, **kwargs}` and hand it to `_process_response`,
returning its outcome; on `ReadTimeout`, raise `TimeoutError` (chaining the
timeout) if `attempt >= max_retries`, otherwise continue; on any other
exception, re-raise it.  An exhausted list means the loop ended without
returning, so the function returns `None`. -/
def requestLoop (transport : Nat → KwArgs → TransportOutcome) (mr : Int)
    (method url : String) (sent : KwArgs) :
    List Nat → List (Nat × KwArgs) → ReqOutcome × List (Nat × KwArgs)
  | [], trace => (ReqOutcome.noneReturned, trace)
  | a :: rest, trace =>
    match transport a sent with
    | TransportOutcome.response resp =>
      (RestClient._process_response resp { data := none, request := requestDict url sent },
       trace ++ [(a, sent)])
    | TransportOutcome.readTimeout e =>
      if mr ≤ (a : Int) then
        (ReqOutcome.timeoutErr
          { maxRetries := mr, method := method, url := url, kwargs := sent, cause := e },
         trace ++ [(a, sent)])
      else
        requestLoop transport mr method url sent rest (trace ++ [(a, sent)])
    | TransportOutcome.otherError e =>
      (ReqOutcome.raised e, trace ++ [(a, sent)])

namespace RestClient

/-- `RestClient.request`: resolves `url = base_url + endpoint`, strips
absent keyword arguments with `filter_none`, then runs the bounded retry
loop over `range(max_retries + 1)`.  The `attempt` and `log` parameters of
the Python signature only affect log text and are not modelled. -/
def request (c : ClientState) (transport : Nat → KwArgs → TransportOutcome)
    (method endpoint : String) (kwargs : KwArgs) : ReqRun :=
  let url := c.base_url ++ endpoint
  let sent := filter_none kwargs
  let r := requestLoop transport c.maxRetries method url sent
    (List.range (c.maxRetries + 1).toNat) []
  { outcome := r.1, calls := r.2 }

/-- `RestClient.get`: forwards to `request` with verb `GET` and the params
dict passed as the `params` keyword argument. -/
def get (c : ClientState) (transport : Nat → KwArgs → TransportOutcome)
    (path : String) (params : ParamVal) : ReqRun :=
  request c transport "GET" path [("params", params)]

/-- `RestClient.post`: forwards to `request` with verb `POST` and the params
dict passed as the `json` keyword argument. -/
def post (c : ClientState) (transport : Nat → KwArgs → TransportOutcome)
    (path : String) (params : ParamVal) : ReqRun :=
  request c transport "POST" path [("json", params)]

/-- `RestClient.delete`: forwards to `request` with verb `DELETE` and the
params dict passed as the `json` keyword argument. -/
def delete (c : ClientState) (transport : Nat → KwArgs → TransportOutcome)
    (path : String) (params : ParamVal) : ReqRun :=
  request c transport "DELETE" path [("json", params)]

end RestClient

/-!
## Heap model for `Result.copy`

`Result.copy` relies on Python object identity: with no overrides it calls
`self.data.copy()` and `self.request.copy()`, which allocate *new* container
objects with equal contents (or raise `AttributeError` when the field is
`None`, since `None` has no `copy` method).  To state ownership/mutation
facts we model a heap of container objects addressed by naturals. -/

/-- A heap of Python container objects: contents of each address, plus the
next fresh address.  Container contents are flat string-keyed dictionaries
of integers, enough for the behaviour under verification (`copy` never
inspects contents). -/
structure Heap where
  mem : Nat → List (String × Int)
  next : Nat

/-- Allocate a new container with the given contents, returning its
address. -/
def Heap.alloc (h : Heap) (content : List (String × Int)) : Nat × Heap :=
  (h.next,
   { mem := fun a => if a = h.next then content else h.mem a, next := h.next + 1 })

/-- In-place mutation of the container at `addr` (e.g. Python
`d["k"] = v` or `d.clear()`), leaving every other object untouched. -/
def Heap.write (h : Heap) (addr : Nat) (content : List (String × Int)) : Heap :=
  { mem := fun a => if a = addr then content else h.mem a, next := h.next }

/-- The `Result` dataclass with reference-semantics fields: `data` and
`request` hold either `None` or the address of a container object. -/
structure Result where
  data : Option Nat
  request : Option Nat
deriving DecidableEq

/-- `Result.copy(data=UNDEFINED, request=UNDEFINED)`.  An override of
`some v` models passing that argument explicitly (`v` may itself be `none`,
i.e. Python `None`); `none` models leaving it at the `UNDEFINED` default.
With the default, the field is taken from `self` via `.copy()`, which
allocates a fresh container with equal contents — or raises
`AttributeError` if the field is `None`.  Python evaluates the `data`
argument before the `request` argument. -/
def Result.copy (h : Heap) (r : Result) (dataOv requestOv : Option (Option Nat)) :
    Except String (Result × Heap) :=
  match dataOv with
  | some v =>
    match requestOv with
    | some w => Except.ok ({ data := v, request := w }, h)
    | none =>
      match r.request with
      | none => Except.error "AttributeError"
      | some ar =>
        let p := h.alloc (h.mem ar)
        Except.ok ({ data := v, request := some p.1 }, p.2)
  | none =>
    match r.data with
    | none => Except.error "AttributeError"
    | some ad =>
      let p := h.alloc (h.mem ad)
      match requestOv with
      | some w => Except.ok ({ data := some p.1, request := w }, p.2)
      | none =>
        match r.request with
        | none => Except.error "AttributeError"
        | some ar =>
          let q := p.2.alloc (p.2.mem ar)
          Except.ok ({ data := some p.1, request := some q.1 }, q.2)

/-!
## Loop lemmas

`requestLoop` is always entered on a list `List.range' s n` of consecutive
attempt indices; the lemmas below compute its result when every attempt
times out, and when the first non-timeout event happens at attempt `k`. -/

/-- What the loop does at the attempt that stops it, for a transport event
that is not a `ReadTimeout`. -/
def stopOutcome (url : String) (sent : KwArgs) : TransportOutcome → ReqOutcome
  | TransportOutcome.response resp =>
    RestClient._process_response resp { data := none, request := requestDict url sent }
  | TransportOutcome.readTimeout e => ReqOutcome.raised e
  | TransportOutcome.otherError e => ReqOutcome.raised e

theorem requestLoop_all_timeouts (transport : Nat → KwArgs → TransportOutcome)
    (N : Nat) (method url : String) (sent : KwArgs) (es : Nat → String)
    (ht : ∀ a, transport a sent = TransportOutcome.readTimeout (es a)) :
    ∀ (n s : Nat) (trace : List (Nat × KwArgs)), s + n = N + 1 → 1 ≤ n →
    requestLoop transport (N : Int) method url sent (List.range' s n) trace =
      (ReqOutcome.timeoutErr
        { maxRetries := (N : Int), method := method, url := url,
          kwargs := sent, cause := es N },
       trace ++ (List.range' s n).map (fun j => (j, sent))) := by
  intro n
  induction n with
  | zero => intro s trace _ h1; omega
  | succ m ih =>
    intro s trace hsn _
    rw [List.range'_succ]
    simp only [requestLoop, ht s]
    rcases Nat.eq_zero_or_pos m with hm | hm
    · subst hm
      have hs : s = N := by omega
      subst hs
      rw [if_pos (by omega)]
      simp [List.range']
    · have hsN : s < N := by omega
      rw [if_neg (by omega)]
      rw [ih (s + 1) (trace ++ [(s, sent)]) (by omega) hm]
      simp

theorem requestLoop_stops_at (transport : Nat → KwArgs → TransportOutcome)
    (N : Nat) (method url : String) (sent : KwArgs) (es : Nat → String) (k : Nat)
    (ht : ∀ j, j < k → transport j sent = TransportOutcome.readTimeout (es j))
    (hk : ∀ e, transport k sent ≠ TransportOutcome.readTimeout e) :
    ∀ (n s : Nat) (trace : List (Nat × KwArgs)), s + n = N + 1 → s ≤ k → k ≤ N →
    requestLoop transport (N : Int) method url sent (List.range' s n) trace =
      (stopOutcome url sent (transport k sent),
       trace ++ (List.range' s (k + 1 - s)).map (fun j => (j, sent))) := by
  intro n
  induction n with
  | zero => intro s trace h0 h1 h2; omega
  | succ m ih =>
    intro s trace hsn hsk hkN
    rw [List.range'_succ]
    rcases Nat.lt_or_ge s k with hlt | hge
    · simp only [requestLoop, ht s hlt]
      rw [if_neg (by omega)]
      rw [ih (s + 1) (trace ++ [(s, sent)]) (by omega) hlt hkN]
      have hrange : k + 1 - s = (k + 1 - (s + 1)) + 1 := by omega
      rw [hrange, List.range'_succ]
      simp
    · have hs : s = k := by omega
      subst hs
      have hone : s + 1 - s = 1 := by omega
      rw [hone]
      simp only [requestLoop]
      match hts : transport s sent with
      | TransportOutcome.response resp => simp [stopOutcome, hts, List.range']
      | TransportOutcome.readTimeout e => exact absurd hts (hk e)
      | TransportOutcome.otherError e => simp [stopOutcome, hts, List.range']

/-- Every transport invocation recorded by the loop either was already in the
accumulated trace or passed exactly the stripped keyword arguments. -/
theorem requestLoop_calls_sent (transport : Nat → KwArgs → TransportOutcome)
    (mr : Int) (method url : String) (sent : KwArgs) :
    ∀ (l : List Nat) (trace : List (Nat × KwArgs)) (p : Nat × KwArgs),
    p ∈ (requestLoop transport mr method url sent l trace).2 →
    p ∈ trace ∨ p.2 = sent := by
  intro l
  induction l with
  | nil => intro trace p hp; exact Or.inl hp
  | cons a rest ih =>
    intro trace p hp
    rcases hts : transport a sent with resp | e | e
    · simp only [requestLoop, hts] at hp
      rcases List.mem_append.mp hp with h | h
      · exact Or.inl h
      · simp at h; right; rw [h]
    · simp only [requestLoop, hts] at hp
      by_cases hc : mr ≤ (a : Int)
      · rw [if_pos hc] at hp
        rcases List.mem_append.mp hp with h | h
        · exact Or.inl h
        · simp at h; right; rw [h]
      · rw [if_neg hc] at hp
        rcases ih (trace ++ [(a, sent)]) p hp with h | h
        · rcases List.mem_append.mp h with h2 | h2
          · exact Or.inl h2
          · simp at h2; right; rw [h2]
        · exact Or.inr h
    · simp only [requestLoop, hts] at hp
      rcases List.mem_append.mp hp with h | h
      · exact Or.inl h
      · simp at h; right; rw [h]

/-- C1: for every non-negative `max_retries = N`, if the transport raises a
read-timeout on every attempt, `request` performs exactly `N + 1` transport
calls and then raises the retries-exhausted `TimeoutError`, whose message
names the verb, URL and (stripped) arguments and whose chained cause is the
timeout of the last attempt. -/
theorem request_retry_exhaustion (c : ClientState)
    (transport : Nat → KwArgs → TransportOutcome) (method endpoint : String)
    (kwargs : KwArgs) (N : Nat) (es : Nat → String)
    (hmr : c.maxRetries = (N : Int))
    (ht : ∀ a, transport a (filter_none kwargs) = TransportOutcome.readTimeout (es a)) :
    RestClient.request c transport method endpoint kwargs =
      { outcome := ReqOutcome.timeoutErr
          { maxRetries := (N : Int), method := method,
            url := c.base_url ++ endpoint, kwargs := filter_none kwargs,
            cause := es N },
        calls := (List.range (N + 1)).map (fun j => (j, filter_none kwargs)) } ∧
    (RestClient.request c transport method endpoint kwargs).calls.length = N + 1 := by
  have htn : ((N : Int) + 1).toNat = N + 1 := by omega
  have key := requestLoop_all_timeouts transport N method (c.base_url ++ endpoint)
    (filter_none kwargs) es ht (N + 1) 0 [] (by omega) (by omega)
  have hmain : RestClient.request c transport method endpoint kwargs =
      { outcome := ReqOutcome.timeoutErr
          { maxRetries := (N : Int), method := method,
            url := c.base_url ++ endpoint, kwargs := filter_none kwargs,
            cause := es N },
        calls := (List.range (N + 1)).map (fun j => (j, filter_none kwargs)) } := by
    simp only [RestClient.request, hmr, htn, List.range_eq_range']
    rw [key]
    simp
  refine ⟨hmain, ?_⟩
  rw [hmain]
  simp

/-- C2: a transport failure that is not a read-timeout, raised at any
reached attempt `k` (every earlier attempt having timed out), is re-raised
immediately: the transport call count stays at `k + 1` (in particular `1`
when it happens on the first attempt), even when `max_retries > 0`. -/
theorem request_non_timeout_not_retried (c : ClientState)
    (transport : Nat → KwArgs → TransportOutcome) (method endpoint : String)
    (kwargs : KwArgs) (N k : Nat) (es : Nat → String) (err : String)
    (hmr : c.maxRetries = (N : Int)) (hkN : k ≤ N)
    (ht : ∀ j, j < k → transport j (filter_none kwargs) = TransportOutcome.readTimeout (es j))
    (hk : transport k (filter_none kwargs) = TransportOutcome.otherError err) :
    RestClient.request c transport method endpoint kwargs =
      { outcome := ReqOutcome.raised err,
        calls := (List.range (k + 1)).map (fun j => (j, filter_none kwargs)) } ∧
    (RestClient.request c transport method endpoint kwargs).calls.length = k + 1 := by
  have htn : ((N : Int) + 1).toNat = N + 1 := by omega
  have hk2 : ∀ e, transport k (filter_none kwargs) ≠ TransportOutcome.readTimeout e := by
    intro e h; rw [hk] at h; exact TransportOutcome.noConfusion h
  have key := requestLoop_stops_at transport N method (c.base_url ++ endpoint)
    (filter_none kwargs) es k ht hk2 (N + 1) 0 [] (by omega) (by omega) hkN
  rw [hk] at key
  have hmain : RestClient.request c transport method endpoint kwargs =
      { outcome := ReqOutcome.raised err,
        calls := (List.range (k + 1)).map (fun j => (j, filter_none kwargs)) } := by
    simp only [RestClient.request, hmr, htn, List.range_eq_range']
    rw [key]
    simp [stopOutcome]
  refine ⟨hmain, ?_⟩
  rw [hmain]
  simp

/-- C3: a transport response whose HTTP status signals a non-success
outcome (status in `[400, 600)`, e.g. 404) makes the call fail with the
`ExternalBrokerError` carrying that status code, the reason and the raw
body; no retry is attempted — exactly one transport call occurs for every
non-negative `max_retries`. -/
theorem request_fatal_http_status (c : ClientState)
    (transport : Nat → KwArgs → TransportOutcome) (method endpoint : String)
    (kwargs : KwArgs) (resp : HttpResponse)
    (hmr : 0 ≤ c.maxRetries)
    (h0 : transport 0 (filter_none kwargs) = TransportOutcome.response resp)
    (hst : 400 ≤ resp.status_code) (hst2 : resp.status_code < 600) :
    RestClient.request c transport method endpoint kwargs =
      { outcome := ReqOutcome.brokerErr
          { result := { data := none,
                        request := requestDict (c.base_url ++ endpoint) (filter_none kwargs) },
            status := resp.status_code, reason := resp.reason, text := resp.text,
            status_code := resp.status_code },
        calls := [(0, filter_none kwargs)] } ∧
    (RestClient.request c transport method endpoint kwargs).calls.length = 1 := by
  have hmr2 : c.maxRetries = (c.maxRetries.toNat : Int) := by omega
  have htn : ((c.maxRetries.toNat : Int) + 1).toNat = c.maxRetries.toNat + 1 := by omega
  have hk2 : ∀ e, transport 0 (filter_none kwargs) ≠ TransportOutcome.readTimeout e := by
    intro e h; rw [h0] at h; exact TransportOutcome.noConfusion h
  have key := requestLoop_stops_at transport c.maxRetries.toNat method
    (c.base_url ++ endpoint) (filter_none kwargs) (fun _ => "") 0
    (by intro j hj; omega) hk2 (c.maxRetries.toNat + 1) 0 [] (by omega) (by omega) (by omega)
  rw [h0] at key
  have hmain : RestClient.request c transport method endpoint kwargs =
      { outcome := ReqOutcome.brokerErr
          { result := { data := none,
                        request := requestDict (c.base_url ++ endpoint) (filter_none kwargs) },
            status := resp.status_code, reason := resp.reason, text := resp.text,
            status_code := resp.status_code },
        calls := [(0, filter_none kwargs)] } := by
    conv_lhs => rw [RestClient.request.eq_1, hmr2]
    simp only [htn, List.range_eq_range']
    rw [key]
    simp [stopOutcome, RestClient._process_response, List.range',
      if_pos (And.intro hst hst2)]
  refine ⟨hmain, ?_⟩
  rw [hmain]
  simp

/-- C4: if every attempt before `k` times out and attempt `k < N` returns a
response with a success status and a parseable body, `request` returns
immediately after `k + 1` transport calls with a `Result` whose `data` is
the parsed body of attempt `k` and whose `request` dictionary holds the
resolved URL together with the stripped transport arguments. -/
theorem request_success_short_circuit (c : ClientState)
    (transport : Nat → KwArgs → TransportOutcome) (method endpoint : String)
    (kwargs : KwArgs) (N k : Nat) (es : Nat → String)
    (resp : HttpResponse) (body : JsonVal)
    (hmr : c.maxRetries = (N : Int)) (hkN : k < N)
    (ht : ∀ j, j < k → transport j (filter_none kwargs) = TransportOutcome.readTimeout (es j))
    (hk : transport k (filter_none kwargs) = TransportOutcome.response resp)
    (hst : resp.status_code < 400)
    (hbody : resp.json = some body)
    (hurl : kwargs.all (fun p => !(p.1 == "url")) = true) :
    RestClient.request c transport method endpoint kwargs =
      { outcome := ReqOutcome.ok
          { data := some body,
            request := ("url", ParamVal.strV (c.base_url ++ endpoint)) :: filter_none kwargs },
        calls := (List.range (k + 1)).map (fun j => (j, filter_none kwargs)) } ∧
    (RestClient.request c transport method endpoint kwargs).calls.length = k + 1 := by
  have htn : ((N : Int) + 1).toNat = N + 1 := by omega
  have hk2 : ∀ e, transport k (filter_none kwargs) ≠ TransportOutcome.readTimeout e := by
    intro e h; rw [hk] at h; exact TransportOutcome.noConfusion h
  have key := requestLoop_stops_at transport N method (c.base_url ++ endpoint)
    (filter_none kwargs) es k ht hk2 (N + 1) 0 [] (by omega) (by omega) (by omega)
  rw [hk] at key
  have hany : (filter_none kwargs).any (fun p => p.1 == "url") = false := by
    rw [List.any_eq_false]
    intro p hp
    have hpk : p ∈ kwargs := List.mem_of_mem_filter hp
    have := List.all_eq_true.mp hurl p hpk
    simpa using this
  have hdict : requestDict (c.base_url ++ endpoint) (filter_none kwargs) =
      ("url", ParamVal.strV (c.base_url ++ endpoint)) :: filter_none kwargs := by
    simp [requestDict, hany]
  have hmain : RestClient.request c transport method endpoint kwargs =
      { outcome := ReqOutcome.ok
          { data := some body,
            request := ("url", ParamVal.strV (c.base_url ++ endpoint)) :: filter_none kwargs },
        calls := (List.range (k + 1)).map (fun j => (j, filter_none kwargs)) } := by
    simp only [RestClient.request, hmr, htn, List.range_eq_range']
    rw [key]
    have hnotfatal : ¬ (400 ≤ resp.status_code ∧ resp.status_code < 600) := by omega
    simp [stopOutcome, RestClient._process_response, hnotfatal, hbody, hdict]
  refine ⟨hmain, ?_⟩
  rw [hmain]
  simp

/-- C5: every transport call performed by `request` receives exactly the
keyword arguments that are not the `UNDEFINED` absent marker; an entry of
the original mapping is passed on iff its value is not the marker, so
`None`-, `False`- and empty-valued entries are kept. -/
theorem request_absent_param_stripping (c : ClientState)
    (transport : Nat → KwArgs → TransportOutcome) (method endpoint : String)
    (kwargs : KwArgs) (key : String) (v : ParamVal) (p : Nat × KwArgs)
    (hp : p ∈ (RestClient.request c transport method endpoint kwargs).calls) :
    p.2 = filter_none kwargs ∧
    ((key, v) ∈ p.2 ↔ (key, v) ∈ kwargs ∧ v ≠ ParamVal.undefined) := by
  simp only [RestClient.request] at hp
  have hsent := requestLoop_calls_sent transport c.maxRetries method
    (c.base_url ++ endpoint) (filter_none kwargs)
    (List.range (c.maxRetries + 1).toNat) [] p hp
  have hps : p.2 = filter_none kwargs := by
    rcases hsent with h | h
    · exact absurd h (List.not_mem_nil p)
    · exact h
  refine ⟨hps, ?_⟩
  rw [hps]
  simp [filter_none, List.mem_filter]

/-- C10: with a negative stored `max_retries`, the loop
`for attempt in range(max_retries + 1)` iterates zero times, so `request`
(and hence `get`, `post`, `delete`) performs no transport call, raises no
error, and falls off the end of the function returning `None` instead of a
`Result`. -/
theorem request_negative_retries_returns_none (c : ClientState)
    (transport : Nat → KwArgs → TransportOutcome) (method endpoint path : String)
    (kwargs : KwArgs) (params : ParamVal)
    (h : c.maxRetries < 0) :
    RestClient.request c transport method endpoint kwargs =
      { outcome := ReqOutcome.noneReturned, calls := [] } ∧
    RestClient.get c transport path params =
      { outcome := ReqOutcome.noneReturned, calls := [] } ∧
    RestClient.post c transport path params =
      { outcome := ReqOutcome.noneReturned, calls := [] } ∧
    RestClient.delete c transport path params =
      { outcome := ReqOutcome.noneReturned, calls := [] } := by
  have h0 : (c.maxRetries + 1).toNat = 0 := by omega
  refine ⟨?_, ?_, ?_, ?_⟩ <;>
    simp [RestClient.request, RestClient.get, RestClient.post, RestClient.delete,
      h0, requestLoop]

/-- Witness for C1: `max_retries = 2`, every attempt times out; three
transport calls happen and the retries-exhausted error carries the verb,
URL, arguments and the last timeout as cause. -/
theorem request_retry_exhaustion_witness :
    ({ base_url := "https://api.test/", cacert := CacertVal.falseV, timeout := 10,
       maxRetries := 2, logger := some 0 } : ClientState).maxRetries = ((2 : Nat) : Int) ∧
    (∀ a : Nat, (fun (a : Nat) (_ : KwArgs) =>
        TransportOutcome.readTimeout ("rt" ++ toString a)) a
        (filter_none [("a", ParamVal.intV 1)]) =
        TransportOutcome.readTimeout ((fun a : Nat => "rt" ++ toString a) a)) ∧
    RestClient.request
        { base_url := "https://api.test/", cacert := CacertVal.falseV, timeout := 10,
          maxRetries := 2, logger := some 0 }
        (fun (a : Nat) (_ : KwArgs) => TransportOutcome.readTimeout ("rt" ++ toString a))
        "GET" "orders" [("a", ParamVal.intV 1)] =
      { outcome := ReqOutcome.timeoutErr
          { maxRetries := 2, method := "GET", url := "https://api.test/orders",
            kwargs := [("a", ParamVal.intV 1)], cause := "rt2" },
        calls := [(0, [("a", ParamVal.intV 1)]), (1, [("a", ParamVal.intV 1)]),
                  (2, [("a", ParamVal.intV 1)])] } :=
  ⟨by decide, fun a => rfl, by
    have h := (request_retry_exhaustion
      { base_url := "https://api.test/", cacert := CacertVal.falseV, timeout := 10,
        maxRetries := 2, logger := some 0 }
      (fun (a : Nat) (_ : KwArgs) => TransportOutcome.readTimeout ("rt" ++ toString a))
      "GET" "orders" [("a", ParamVal.intV 1)] 2 (fun a : Nat => "rt" ++ toString a)
      (by decide) (fun a => rfl)).1
    rw [h]; decide⟩

/-- Witness for C2: attempt 0 times out, attempt 1 raises a connection
error with `max_retries = 3`; the error is re-raised after exactly two
transport calls.  The `None`-valued argument is kept. -/
theorem request_non_timeout_not_retried_witness :
    ({ base_url := "https://api.test/", cacert := CacertVal.falseV, timeout := 10,
       maxRetries := 3, logger := some 0 } : ClientState).maxRetries = ((3 : Nat) : Int) ∧
    (∀ j : Nat, j < 1 → (fun (a : Nat) (_ : KwArgs) =>
        if a = 0 then TransportOutcome.readTimeout "rt0"
        else TransportOutcome.otherError "ConnectionError") j
        (filter_none [("a", ParamVal.noneV)]) =
        TransportOutcome.readTimeout ((fun _ : Nat => "rt0") j)) ∧
    ((fun (a : Nat) (_ : KwArgs) =>
        if a = 0 then TransportOutcome.readTimeout "rt0"
        else TransportOutcome.otherError "ConnectionError") 1
        (filter_none [("a", ParamVal.noneV)]) =
        TransportOutcome.otherError "ConnectionError") ∧
    RestClient.request
        { base_url := "https://api.test/", cacert := CacertVal.falseV, timeout := 10,
          maxRetries := 3, logger := some 0 }
        (fun (a : Nat) (_ : KwArgs) =>
          if a = 0 then TransportOutcome.readTimeout "rt0"
          else TransportOutcome.otherError "ConnectionError")
        "GET" "orders" [("a", ParamVal.noneV)] =
      { outcome := ReqOutcome.raised "ConnectionError",
        calls := [(0, [("a", ParamVal.noneV)]), (1, [("a", ParamVal.noneV)])] } :=
  ⟨by decide,
   fun j hj => by
     have hj0 : j = 0 := by omega
     subst hj0; rfl,
   rfl, by
    have h := (request_non_timeout_not_retried
      { base_url := "https://api.test/", cacert := CacertVal.falseV, timeout := 10,
        maxRetries := 3, logger := some 0 }
      (fun (a : Nat) (_ : KwArgs) =>
        if a = 0 then TransportOutcome.readTimeout "rt0"
        else TransportOutcome.otherError "ConnectionError")
      "GET" "orders" [("a", ParamVal.noneV)] 3 1 (fun _ => "rt0") "ConnectionError"
      (by decide) (by omega)
      (fun j hj => by
        have hj0 : j = 0 := by omega
        subst hj0; rfl)
      rfl).1
    rw [h]; decide⟩

/-- Witness for C3: the transport returns HTTP 404 with body `not found`;
the call fails with the broker error carrying status 404 and exactly one
transport call occurs although `max_retries = 3`. -/
theorem request_fatal_http_status_witness :
    (0 : Int) ≤ ({ base_url := "https://api.test/", cacert := CacertVal.falseV,
                   timeout := 10, maxRetries := 3, logger := some 0 } : ClientState).maxRetries ∧
    ((fun (_ : Nat) (_ : KwArgs) => TransportOutcome.response
        { status_code := 404, reason := "Not Found", text := "not found", json := none }) 0
        (filter_none []) =
      TransportOutcome.response
        { status_code := 404, reason := "Not Found", text := "not found", json := none }) ∧
    400 ≤ 404 ∧ 404 < 600 ∧
    RestClient.request
        { base_url := "https://api.test/", cacert := CacertVal.falseV, timeout := 10,
          maxRetries := 3, logger := some 0 }
        (fun (_ : Nat) (_ : KwArgs) => TransportOutcome.response
          { status_code := 404, reason := "Not Found", text := "not found", json := none })
        "GET" "orders" [] =
      { outcome := ReqOutcome.brokerErr
          { result := { data := none,
                        request := [("url", ParamVal.strV "https://api.test/orders")] },
            status := 404, reason := "Not Found", text := "not found",
            status_code := 404 },
        calls := [(0, [])] } :=
  ⟨by decide, rfl, by decide, by decide, by
    have h := (request_fatal_http_status
      { base_url := "https://api.test/", cacert := CacertVal.falseV, timeout := 10,
        maxRetries := 3, logger := some 0 }
      (fun (_ : Nat) (_ : KwArgs) => TransportOutcome.response
        { status_code := 404, reason := "Not Found", text := "not found", json := none })
      "GET" "orders" []
      { status_code := 404, reason := "Not Found", text := "not found", json := none }
      (by decide) rfl (by decide) (by decide)).1
    rw [h]; decide⟩

/-- Witness for C4: attempt 0 times out, attempt 1 returns HTTP 200 with a
parsed body and `max_retries = 3`; the call returns after two transport
calls with the parsed body and the url-plus-arguments request dict. -/
theorem request_success_short_circuit_witness :
    ({ base_url := "https://api.test/", cacert := CacertVal.falseV, timeout := 10,
       maxRetries := 3, logger := some 0 } : ClientState).maxRetries = ((3 : Nat) : Int) ∧
    (1 : Nat) < 3 ∧
    (∀ j : Nat, j < 1 → (fun (a : Nat) (_ : KwArgs) =>
        if a = 0 then TransportOutcome.readTimeout "rt0"
        else TransportOutcome.response
          { status_code := 200, reason := "OK", text := "raw body",
            json := some (JsonVal.dict [("status", "ok")]) }) j
        (filter_none [("a", ParamVal.intV 1)]) =
        TransportOutcome.readTimeout ((fun _ : Nat => "rt0") j)) ∧
    RestClient.request
        { base_url := "https://api.test/", cacert := CacertVal.falseV, timeout := 10,
          maxRetries := 3, logger := some 0 }
        (fun (a : Nat) (_ : KwArgs) =>
          if a = 0 then TransportOutcome.readTimeout "rt0"
          else TransportOutcome.response
            { status_code := 200, reason := "OK", text := "raw body",
              json := some (JsonVal.dict [("status", "ok")]) })
        "GET" "orders" [("a", ParamVal.intV 1)] =
      { outcome := ReqOutcome.ok
          { data := some (JsonVal.dict [("status", "ok")]),
            request := [("url", ParamVal.strV "https://api.test/orders"),
                        ("a", ParamVal.intV 1)] },
        calls := [(0, [("a", ParamVal.intV 1)]), (1, [("a", ParamVal.intV 1)])] } :=
  ⟨by decide, by decide,
   fun j hj => by
     have hj0 : j = 0 := by omega
     subst hj0; rfl,
   by
    have h := (request_success_short_circuit
      { base_url := "https://api.test/", cacert := CacertVal.falseV, timeout := 10,
        maxRetries := 3, logger := some 0 }
      (fun (a : Nat) (_ : KwArgs) =>
        if a = 0 then TransportOutcome.readTimeout "rt0"
        else TransportOutcome.response
          { status_code := 200, reason := "OK", text := "raw body",
            json := some (JsonVal.dict [("status", "ok")]) })
      "GET" "orders" [("a", ParamVal.intV 1)] 3 1 (fun _ => "rt0")
      { status_code := 200, reason := "OK", text := "raw body",
        json := some (JsonVal.dict [("status", "ok")]) }
      (JsonVal.dict [("status", "ok")])
      (by decide) (by omega)
      (fun j hj => by
        have hj0 : j = 0 := by omega
        subst hj0; rfl)
      rfl (by decide) rfl (by decide)).1
    rw [h]; decide⟩

/-- Witness for C5: with arguments `a = 1` and `b = UNDEFINED`, the single
transport call receives `a` but not `b`. -/
theorem request_absent_param_stripping_witness :
    ((0, [("a", ParamVal.intV 1)]) ∈
      (RestClient.request
        { base_url := "https://api.test/", cacert := CacertVal.falseV, timeout := 10,
          maxRetries := 3, logger := some 0 }
        (fun (_ : Nat) (_ : KwArgs) => TransportOutcome.response
          { status_code := 200, reason := "OK", text := "raw body",
            json := some (JsonVal.dict []) })
        "GET" "orders" [("a", ParamVal.intV 1), ("b", ParamVal.undefined)]).calls) ∧
    ((0, [("a", ParamVal.intV 1)]) : Nat × KwArgs).2 =
      filter_none [("a", ParamVal.intV 1), ("b", ParamVal.undefined)] ∧
    ((("b", ParamVal.undefined) ∈ ((0, [("a", ParamVal.intV 1)]) : Nat × KwArgs).2 ↔
      ("b", ParamVal.undefined) ∈ [("a", ParamVal.intV 1), ("b", ParamVal.undefined)] ∧
        ParamVal.undefined ≠ ParamVal.undefined)) :=
  ⟨by decide,
   (request_absent_param_stripping
     { base_url := "https://api.test/", cacert := CacertVal.falseV, timeout := 10,
       maxRetries := 3, logger := some 0 }
     (fun (_ : Nat) (_ : KwArgs) => TransportOutcome.response
       { status_code := 200, reason := "OK", text := "raw body",
         json := some (JsonVal.dict []) })
     "GET" "orders" [("a", ParamVal.intV 1), ("b", ParamVal.undefined)]
     "b" ParamVal.undefined (0, [("a", ParamVal.intV 1)]) (by decide)).1,
   (request_absent_param_stripping
     { base_url := "https://api.test/", cacert := CacertVal.falseV, timeout := 10,
       maxRetries := 3, logger := some 0 }
     (fun (_ : Nat) (_ : KwArgs) => TransportOutcome.response
       { status_code := 200, reason := "OK", text := "raw body",
         json := some (JsonVal.dict []) })
     "GET" "orders" [("a", ParamVal.intV 1), ("b", ParamVal.undefined)]
     "b" ParamVal.undefined (0, [("a", ParamVal.intV 1)]) (by decide)).2⟩

/-- Witness for C10: a client whose stored `max_retries` is `-1` performs no
transport call and returns `None` from `request`, `get`, `post` and
`delete`. -/
theorem request_negative_retries_returns_none_witness :
    ({ base_url := "https://api.test/", cacert := CacertVal.falseV, timeout := 10,
       maxRetries := -1, logger := some 0 } : ClientState).maxRetries < 0 ∧
    (RestClient.request
        { base_url := "https://api.test/", cacert := CacertVal.falseV, timeout := 10,
          maxRetries := -1, logger := some 0 }
        (fun (a : Nat) (_ : KwArgs) => TransportOutcome.readTimeout ("rt" ++ toString a))
        "GET" "orders" [] =
      { outcome := ReqOutcome.noneReturned, calls := [] } ∧
    RestClient.get
        { base_url := "https://api.test/", cacert := CacertVal.falseV, timeout := 10,
          maxRetries := -1, logger := some 0 }
        (fun (a : Nat) (_ : KwArgs) => TransportOutcome.readTimeout ("rt" ++ toString a))
        "orders" (ParamVal.dictV []) =
      { outcome := ReqOutcome.noneReturned, calls := [] } ∧
    RestClient.post
        { base_url := "https://api.test/", cacert := CacertVal.falseV, timeout := 10,
          maxRetries := -1, logger := some 0 }
        (fun (a : Nat) (_ : KwArgs) => TransportOutcome.readTimeout ("rt" ++ toString a))
        "orders" (ParamVal.dictV []) =
      { outcome := ReqOutcome.noneReturned, calls := [] } ∧
    RestClient.delete
        { base_url := "https://api.test/", cacert := CacertVal.falseV, timeout := 10,
          maxRetries := -1, logger := some 0 }
        (fun (a : Nat) (_ : KwArgs) => TransportOutcome.readTimeout ("rt" ++ toString a))
        "orders" (ParamVal.dictV []) =
      { outcome := ReqOutcome.noneReturned, calls := [] }) :=
  ⟨by decide,
   request_negative_retries_returns_none
     { base_url := "https://api.test/", cacert := CacertVal.falseV, timeout := 10,
       maxRetries := -1, logger := some 0 }
     (fun (a : Nat) (_ : KwArgs) => TransportOutcome.readTimeout ("rt" ++ toString a))
     "GET" "orders" "orders" [] (ParamVal.dictV []) (by decide)⟩

/-- C6 counterexample: a default-constructed `Result` (`data=None`,
`request={}`) cannot be copied with no overrides — `self.data.copy()`
evaluates `None.copy()` and raises `AttributeError` — so `copy` does not
return an equal, independently-owned `Result` for *every* `Result`. -/
theorem result_copy_none_data_cex :
    Result.copy { mem := fun _ => [], next := 1 } { data := none, request := some 0 }
      none none = Except.error "AttributeError" := rfl

/-- C6 amended: for every `Result` whose `data` and `request` are actual
container objects (not `None`), `copy()` with no overrides returns a
`Result` with contents equal to the original field-for-field but held in
freshly allocated containers; mutating the copy's containers does not alter
the original's contents. -/
theorem result_copy_independent (h : Heap) (r : Result) (ad ar : Nat)
    (hd : r.data = some ad) (hr : r.request = some ar)
    (had : ad < h.next) (har : ar < h.next) :
    ∃ h2 : Heap,
      Result.copy h r none none =
        Except.ok ({ data := some h.next, request := some (h.next + 1) }, h2) ∧
      h2.mem h.next = h.mem ad ∧
      h2.mem (h.next + 1) = h.mem ar ∧
      h.next ≠ ad ∧ h.next + 1 ≠ ar ∧
      (∀ v, (h2.write h.next v).mem ad = h.mem ad) ∧
      (∀ v, (h2.write (h.next + 1) v).mem ar = h.mem ar) := by
  simp only [Result.copy, hd, hr]
  have h1 : ad ≠ h.next := by omega
  have h2 : ad ≠ h.next + 1 := by omega
  have h3 : ar ≠ h.next := by omega
  have h4 : ar ≠ h.next + 1 := by omega
  refine ⟨_, rfl, ?_, ?_, by omega, by omega, ?_, ?_⟩
  · simp [Heap.alloc]
  · simp [Heap.alloc, h3]
  · intro v
    simp [Heap.write, Heap.alloc, h1, h2]
  · intro v
    simp [Heap.write, Heap.alloc, h3, h4]

/-- Witness for the amended C6 at a two-object heap:
`Result(data={"a": 1}, request={})` at addresses 0 and 1. -/
theorem result_copy_independent_witness :
    ({ data := some 0, request := some 1 } : Result).data = some 0 ∧
    ({ data := some 0, request := some 1 } : Result).request = some 1 ∧
    0 < ({ mem := fun a => if a = 0 then [("a", (1 : Int))] else [], next := 2 } : Heap).next ∧
    1 < ({ mem := fun a => if a = 0 then [("a", (1 : Int))] else [], next := 2 } : Heap).next ∧
    (∃ h2 : Heap,
      Result.copy { mem := fun a => if a = 0 then [("a", (1 : Int))] else [], next := 2 }
          { data := some 0, request := some 1 } none none =
        Except.ok ({ data := some 2, request := some 3 }, h2) ∧
      h2.mem 2 = [("a", (1 : Int))] ∧
      h2.mem 3 = [] ∧
      (2 : Nat) ≠ 0 ∧ (2 : Nat) + 1 ≠ 1 ∧
      (∀ v, (h2.write 2 v).mem 0 = [("a", (1 : Int))]) ∧
      (∀ v, (h2.write 3 v).mem 1 = [])) :=
  ⟨rfl, rfl, by decide, by decide,
   result_copy_independent
     { mem := fun a => if a = 0 then [("a", (1 : Int))] else [], next := 2 }
     { data := some 0, request := some 1 } 0 1 rfl rfl (by decide) (by decide)⟩

/-- C7 counterexample: constructing a client with `max_retries = -1`
succeeds — no configuration error is raised at construction, the negative
value is stored verbatim — contradicting the claim that it fails. -/
theorem init_negative_retries_cex :
    RestClient.init (some "https://x.test/") CacertVal.falseV (fun _ => false) 10 (-1) =
      Except.ok { base_url := "https://x.test/", cacert := CacertVal.falseV,
                  timeout := 10, maxRetries := -1, logger := some 0 } := rfl

/-- C7 amended: constructing a client with a negative `max_retries`
*succeeds*: the value is stored verbatim, no configuration error is raised
at construction (negative retries are the caller's responsibility). -/
theorem init_negative_retries_stored (u : String) (fe : String → Bool) (t mr : Int)
    (hmr : mr < 0) :
    ∃ c : ClientState,
      RestClient.init (some u) CacertVal.falseV fe t mr = Except.ok c ∧
      c.maxRetries = mr ∧ c.logger = some 0 :=
  ⟨_, rfl, rfl, rfl⟩

/-- Witness for the amended C7 at `max_retries = -1`. -/
theorem init_negative_retries_stored_witness :
    (-1 : Int) < 0 ∧
    (∃ c : ClientState,
      RestClient.init (some "https://x.test") CacertVal.falseV (fun _ => false) 10 (-1) =
        Except.ok c ∧
      c.maxRetries = -1 ∧ c.logger = some 0) :=
  ⟨by decide,
   init_negative_retries_stored "https://x.test" (fun _ => false) 10 (-1) (by decide)⟩

/-- C8: construction with a `cacert` path that does not exist fails with
the configuration `ValueError` before any request is possible, while the
disabled sentinel `False` or an existing path passes the check and
construction succeeds. -/
theorem init_cacert_validation (u p q : String) (fe : String → Bool) (t mr : Int)
    (hp : fe p = false) (hq : fe q = true) :
    RestClient.init (some u) (CacertVal.path p) fe t mr =
      Except.error "cacert must be a valid Path or False" ∧
    (∃ c : ClientState,
      RestClient.init (some u) (CacertVal.path q) fe t mr = Except.ok c) ∧
    (∃ c : ClientState,
      RestClient.init (some u) CacertVal.falseV fe t mr = Except.ok c) := by
  refine ⟨?_, ?_, ⟨_, rfl⟩⟩
  · simp [RestClient.init, hp]
  · exact ⟨RestClient.make_logger
      { base_url := if RestClient.url_endswith_slash u then u else u ++ "/",
        cacert := CacertVal.path q, timeout := t, maxRetries := mr,
        logger := none } 0, by simp [RestClient.init, hq]⟩

/-- Witness for C8: path `/absent` does not exist, path `/present` does. -/
theorem init_cacert_validation_witness :
    (fun s => s == "/present") "/absent" = false ∧
    (fun s => s == "/present") "/present" = true ∧
    (RestClient.init (some "https://x.test") (CacertVal.path "/absent")
        (fun s => s == "/present") 10 3 =
      Except.error "cacert must be a valid Path or False" ∧
    (∃ c : ClientState,
      RestClient.init (some "https://x.test") (CacertVal.path "/present")
        (fun s => s == "/present") 10 3 = Except.ok c) ∧
    (∃ c : ClientState,
      RestClient.init (some "https://x.test") CacertVal.falseV
        (fun s => s == "/present") 10 3 = Except.ok c)) :=
  ⟨by decide, by decide,
   init_cacert_validation "https://x.test" "/absent" "/present"
     (fun s => s == "/present") 10 3 (by decide) (by decide)⟩

/-- C9 counterexample: immediately after construction the logging sink is
already created (`__init__` calls `make_logger`), contradicting the claim
that construction does not create the sink and that it is created lazily
on first access. -/
theorem init_eager_logger_cex :
    (RestClient.init (some "https://x.test/") CacertVal.falseV (fun _ => true) 10 3).map
      ClientState.logger = Except.ok (some 0) := rfl

/-- C9 amended: client construction *eagerly* creates the logging sink via
`make_logger`; the `logger` property then returns that same sink without
re-initializing, so one sink is reused for the client's lifetime; and were
the sink attribute missing, the property would transparently initialize it
instead of failing. -/
theorem logger_lifecycle (url : Option String) (cv : CacertVal) (fe : String → Bool)
    (t mr : Int) (c : ClientState) (fresh : Nat)
    (hc : RestClient.init url cv fe t mr = Except.ok c) :
    c.logger = some 0 ∧
    RestClient.loggerProp c fresh = (0, c) ∧
    (∀ st : ClientState, st.logger = none →
      RestClient.loggerProp st fresh = (fresh, { st with logger := some fresh })) := by
  have hlog : c.logger = some 0 := by
    match url with
    | none => simp [RestClient.init] at hc
    | some u =>
      simp only [RestClient.init] at hc
      split at hc
      · rw [Except.ok.injEq] at hc
        rw [← hc]
        rfl
      · simp at hc
  refine ⟨hlog, ?_, ?_⟩
  · simp [RestClient.loggerProp, hlog]
  · intro st hst
    simp [RestClient.loggerProp, hst]

/-- Witness for the amended C9 at a concrete construction. -/
theorem logger_lifecycle_witness :
    RestClient.init (some "https://x.test/") CacertVal.falseV (fun _ => true) 10 3 =
      Except.ok { base_url := "https://x.test/", cacert := CacertVal.falseV,
                  timeout := 10, maxRetries := 3, logger := some 0 } ∧
    (({ base_url := "https://x.test/", cacert := CacertVal.falseV,
        timeout := 10, maxRetries := 3, logger := some 0 } : ClientState).logger = some 0 ∧
    RestClient.loggerProp
        { base_url := "https://x.test/", cacert := CacertVal.falseV,
          timeout := 10, maxRetries := 3, logger := some 0 } 7 =
      (0, { base_url := "https://x.test/", cacert := CacertVal.falseV,
            timeout := 10, maxRetries := 3, logger := some 0 }) ∧
    (∀ st : ClientState, st.logger = none →
      RestClient.loggerProp st 7 = (7, { st with logger := some 7 }))) :=
  ⟨rfl,
   logger_lifecycle (some "https://x.test/") CacertVal.falseV (fun _ => true) 10 3
     { base_url := "https://x.test/", cacert := CacertVal.falseV,
       timeout := 10, maxRetries := 3, logger := some 0 } 7 rfl⟩
